import Mathlib

/-!
Verification of the SuperStackBuilder "Stacks" progression state machine and
message-rollback protocol, a shallow embedding of the Express route handlers
(`POST /api/stacks/create`, `POST /api/stacks/:sessionId/message`,
`POST /api/stacks/:sessionId/complete`,
`PATCH /api/stacks/:sessionId/message/:messageId`,
`GET /api/stacks/:sessionId/export`), the shared schema question-flow tables,
and the MongoDB vector-search module boundary (`semanticSearch`,
`upsertMessageEmbedding`).

Persistent relational state is modelled as a single addressed session row plus
the `stack_messages` table (a list ordered by creation timestamp, as
`getSessionMessages` orders by `createdAt`).  Timestamps and row ids are
explicit naturals handed out by the state; external effects (the Anthropic
generation call, the Cohere embedding call, the Mongo connection and queries)
are parameters of the operations, so that both their success and failure
behaviours are captured.
-/

namespace StackBuilder

/-- Stack types, from `stackTypeEnum` in the shared schema. -/
inductive StackType where
  | gratitude
  | idea
  | discover
  | angry
  deriving DecidableEq, Repr

/-- Session lifecycle status, from `stackStatusEnum` in the shared schema. -/
inductive StackStatus where
  | in_progress
  | completed
  deriving DecidableEq, Repr

/-- Message author role (the `role` varchar of `stack_messages`). -/
inductive Role where
  | user
  | assistant
  deriving DecidableEq, Repr

/-- Question flow for one stack type (`StackQuestions` in the shared schema). -/
structure StackQuestions where
  questions : List String
  totalQuestions : Nat
  deriving DecidableEq, Repr

/-- One row of `stack_sessions` (fields relevant to the core logic). -/
structure StackSession where
  id : String
  userId : String
  title : String
  stackType : StackType
  core4Domain : String
  status : StackStatus
  currentQuestionIndex : Nat
  subjectEntity : Option String
  completedAt : Option Nat
  deriving DecidableEq, Repr

/-- One row of `stack_messages`. -/
structure StackMessage where
  id : Nat
  sessionId : String
  role : Role
  content : String
  questionNumber : Option Nat
  createdAt : Nat
  deriving DecidableEq, Repr

/-- Persistent state visible to the route handlers of one session: the session row,
the message table (in `createdAt` order; it may also hold rows of other
sessions, which matters for the ownership check of the edit route), and the next
fresh row id / timestamp. -/
structure SessionState where
  session : StackSession
  messages : List StackMessage
  nextId : Nat
  nextTime : Nat
  deriving DecidableEq, Repr

/-- Error taxonomy of the route handlers, one constructor per distinct
rejection site. -/
inductive RouteError where
  | invalidInput
  | wrongSession
  | invalidRole
  | conflict
  | notFound
  | accessDenied
  | upstream
  | internalError
  deriving DecidableEq, Repr

/-- HTTP status each rejection is sent with. -/
def httpStatus : RouteError → Nat
  | RouteError.invalidInput => 400
  | RouteError.wrongSession => 400
  | RouteError.invalidRole => 400
  | RouteError.conflict => 400
  | RouteError.notFound => 404
  | RouteError.accessDenied => 403
  | RouteError.upstream => 500
  | RouteError.internalError => 500

/-- Whitespace characters recognised by JavaScript `String.prototype.trim`
(restricted to the ASCII range, which covers every string the handlers
receive in the scenarios modelled here). -/
def jsWhitespace : List Char := [(' '), ('\t'), ('\n'), ('\r'), ('\x0b'), ('\x0c')]

/-- JavaScript `s.trim()`: strip leading and trailing whitespace. -/
def jsTrim (s : String) : String :=
  String.mk
    (((s.data.dropWhile (fun c => jsWhitespace.contains c)).reverse.dropWhile
        (fun c => jsWhitespace.contains c)).reverse)

/-- Whether the first list occurs at the head of the second. -/
def startsWithChars : List Char → List Char → Bool
  | [], _ => true
  | _ :: _, [] => false
  | p :: ps, c :: cs => p = c && startsWithChars ps cs

/-- Fuel-indexed worker for global replacement: at each position either the
pattern matches and is replaced, or one character is copied. -/
def replaceAllAux : Nat → List Char → List Char → List Char → List Char
  | 0, _, _, l => l
  | _ + 1, _, _, [] => []
  | fuel + 1, pat, rep, c :: rest =>
    if startsWithChars pat (c :: rest) then
      rep ++ replaceAllAux fuel pat rep ((c :: rest).drop pat.length)
    else
      c :: replaceAllAux fuel pat rep rest

/-- JavaScript `s.replace(/pat/g, rep)` for a literal pattern: replace every
(non-overlapping, leftmost) occurrence. -/
def jsReplaceAll (s pat rep : String) : String :=
  String.mk (replaceAllAux s.data.length pat.data rep.data s.data)

/-- JavaScript `s.split(sep)[0]` for a single-character separator: the prefix
before the first occurrence (the whole string when the separator is absent). -/
def jsSplitHead (sep : Char) (s : String) : String :=
  String.mk (s.data.takeWhile (fun c => c ≠ sep))

/-- JavaScript `s.substring(0, n)`. -/
def jsTake (s : String) (n : Nat) : String :=
  String.mk (s.data.take n)

/-- The static question tables (`stackQuestionFlows` in the shared schema). -/
def stackQuestionFlows : StackType → StackQuestions
  | StackType.gratitude =>
    { totalQuestions := 15,
      questions := [
        "What are you going to title this Gratitude Stack?",
        "What domain of CORE 4 are you Stacking? (Mind, Body, Being, or Balance)",
        "Who/What are you stacking?",
        "In this moment, why has [X] triggered you to feel grateful?",
        "What is the story you\x27re telling yourself, created by this trigger, about [X] and the situation?",
        "Describe the single word feelings that arise for you when you tell yourself that story.",
        "Describe the specific thoughts and actions that arise for you when you tell yourself this story.",
        "What are the non-emotional FACTS about the situation with [X] that triggered you to feel grateful?",
        "Empowered by your gratitude trigger with [X] and the original story you are telling yourself, what do you truly want for you in and beyond this situation?",
        "What do you want for [X] in and beyond this situation?",
        "What do you want for [X] and YOU in and beyond this situation?",
        "Stepping back from what you have created so far, why has this gratitude trigger been extremely positive?",
        "Looking at how positive this gratitude trigger has been, what is the singular lesson on life you are taking from this Stack?",
        "What is the most significant REVELATION or INSIGHT you are leaving this Gratitude Stack with, and why do you feel that way?",
        "What immediate ACTIONS are you committed to taking leaving this Stack?"] }
  | StackType.idea =>
    { totalQuestions := 25,
      questions := [
        "What are you going to title this Idea Stack?",
        "What domain of CORE 4 are you Stacking? (Mind, Body, Being, or Balance)",
        "Who/What are you stacking?",
        "In this moment, what Idea has [X] activated in you?",
        "What is the story you\x27re telling yourself about this new idea?",
        "Describe the single word feelings that arise for you when you tell yourself that story.",
        "Describe the specific thoughts and actions that arise for you when you tell yourself this story.",
        "If this productive idea is executed on, what are the positive benefits to your world and those you are connected to?",
        "If this productive idea is not executed on, what are the possible negative side effects to your world and those you are connected to?",
        "What is the first measurable FACT?",
        "Why do you feel selecting this FACT is significant?",
        "What is a simple TITLE you could give this FACT?",
        "What is the second measurable FACT?",
        "Why do you feel selecting this FACT is significant?",
        "What is a simple TITLE you could give this FACT?",
        "What is the third measurable FACT?",
        "Why do you feel selecting this FACT is significant?",
        "What is a simple TITLE you could give this FACT?",
        "What is the fourth measurable FACT?",
        "Why do you feel selecting this FACT is significant?",
        "What is a simple TITLE you could give this FACT?",
        "Stepping back from this Idea Stack, why has this productive idea been extremely positive?",
        "Looking at how positive this productive idea has been, what is the singular lesson about life you are taking from this Stack?",
        "What is the most significant REVELATION or INSIGHT you are leaving this Idea Stack with, and why do you feel that way?",
        "What immediate actions are you committed to taking leaving this Stack?"] }
  | StackType.discover =>
    { totalQuestions := 14,
      questions := [
        "What are you going to title this Discover Stack?",
        "What domain of CORE 4 are you Stacking? (Mind, Body, Being, or Balance)",
        "Who/What are you stacking?",
        "In this moment, what Discovery has [X] activated in you?",
        "What is the story you\x27re telling yourself about this discovery?",
        "Describe the single word feelings that arise for you when you tell yourself that story.",
        "Describe the specific thoughts and actions that arise for you when you tell yourself this story.",
        "Stepping back from what you have discovered, why has this discovery been extremely positive?",
        "Looking at how positive this discovery trigger has been, what is the singular lesson about life you are taking from this Stack?",
        "What Category of life would you like to apply this discovery?",
        "The lesson you learned was: [fill in based on your previous answer]",
        "How does this lesson apply to your chosen CORE 4 domain?",
        "What is the most significant REVELATION, or INSIGHT, that you are leaving this Discover Stack with? Why do you feel that way?",
        "What immediate actions are you committed to taking leaving this Discover Stack?"] }
  | StackType.angry =>
    { totalQuestions := 22,
      questions := [
        "What are you going to title this Angry Stack?",
        "What domain of CORE 4 are you stacking? (Mind, Body, Being, or Balance)",
        "Who/What are you stacking?",
        "In this moment, why has [X] triggered you to feel anger?",
        "What is the story you\x27re telling yourself, created by this trigger, about [X] and the situation?",
        "Describe the single word feelings that arise for you when you tell yourself that story.",
        "Describe the specific thoughts and actions that arise for you when you tell yourself this story.",
        "What evidence do you have to support this story as absolutely true?",
        "What are the non-emotional facts about the situation with [X] that triggered you to feel anger?",
        "Regardless of your anger trigger with [X] and the original story you are telling yourself, what do you truly want for you in and beyond this situation?",
        "What do you want for [X] in and beyond this situation?",
        "What do you want for [X] and YOU in and beyond this situation?",
        "If you keep telling yourself this original story, will it ultimately give you what you want?",
        "Are you ready to let go of the original story, to expand your mind and reality around this trigger and create a new power story that will assure you get what you want?",
        "Letting go of the original story and reviewing what you want, and knowing you can ultimately create any story you desire â€” what is your new DESIRED VERSION of the story?",
        "What evidence can you see to prove this DESIRED STORY is accurate, so you can weaponize yourself to move forward today?",
        "Stepping back and reviewing what you want, will telling yourself this desired story give you what you want?",
        "Stepping back from what you have created so far, why has this anger trigger been extremely positive?",
        "Looking at how positive this anger trigger has been, what is the singular lesson on life you are taking from this Stack?",
        "What is the most significant revelation or insight you are leaving this Angry Stack with, and why do you feel that way?",
        "Compared to how you felt when you started this Angry Stack, what singular words would you use to describe how you feel now completing it?",
        "What immediate actions are you committed to taking leaving this Stack?"] }

/-- Number of questions the advance handler actually consults
(`stackQuestionFlows[...].questions.length`). -/
def questionCount (t : StackType) : Nat :=
  (stackQuestionFlows t).questions.length

/-- The initial chat question (`getInitialQuestion` in `server/ai.ts`):
question index 3 with the `[X]` placeholder substituted, falling back to the
first question when index 3 is missing or the substituted text is empty
(the source uses JavaScript `||`, so an empty string also falls back). -/
def getInitialQuestion (stackType : StackType) (subjectEntity : Option String) : String :=
  let questions := (stackQuestionFlows stackType).questions
  let firstQuestion := questions.headD ("")
  match questions.get? 3 with
  | none => firstQuestion
  | some q =>
    let substituted := jsReplaceAll q ("[X]") (subjectEntity.getD ("[subject]"))
    if substituted = "" then firstQuestion else substituted

/-- Result produced by the success path of `POST /api/stacks/create`: a session
row at cursor 3 and the single opening assistant message numbered 4. -/
def createStack (userId title : String) (stackType : StackType)
    (core4Domain subjectEntity : String) (sessionId : String)
    (startId startTime : Nat) : SessionState :=
  { session :=
      { id := sessionId, userId := userId, title := title,
        stackType := stackType, core4Domain := core4Domain,
        status := StackStatus.in_progress, currentQuestionIndex := 3,
        subjectEntity := some subjectEntity, completedAt := none },
    messages :=
      [{ id := startId, sessionId := sessionId, role := Role.assistant,
         content := getInitialQuestion stackType (some subjectEntity),
         questionNumber := some 4, createdAt := startTime }],
    nextId := startId + 1, nextTime := startTime + 1 }

/-- The `POST /api/stacks/create` handler: rejects when any form field is
empty, otherwise builds the `createStack` state. -/
def createStackRoute (userId title : String) (stackType : StackType)
    (core4Domain subjectEntity : String) (sessionId : String)
    (startId startTime : Nat) : Except RouteError SessionState :=
  if title = "" ∨ core4Domain = "" ∨ subjectEntity = "" then
    Except.error RouteError.invalidInput
  else
    Except.ok (createStack userId title stackType core4Domain subjectEntity
      sessionId startId startTime)

/-- The transcript of the session as `getSessionMessages` returns it: the message
table restricted to this session, in creation order. -/
def sessMsgs (st : SessionState) : List StackMessage :=
  st.messages.filter (fun m => m.sessionId = st.session.id)

/-- Count of assistant-authored messages in a list. -/
def assistCount (l : List StackMessage) : Nat :=
  (l.filter (fun m => m.role = Role.assistant)).length

/-- The advance operation (`POST /api/stacks/:sessionId/message`).  `ai` is
the outcome of the external `getAIResponse` call: `Except.ok text` when the
generation succeeds, `Except.error ()` when it throws.  The checks appear in
source order: empty content, ownership, completed-session conflict; then the
user message is committed, the AI call runs (a failure aborts with the user
message already persisted), the assistant message is committed, and the cursor
is advanced or the session auto-completed. -/
def advance (st : SessionState) (requester : String) (content : String)
    (ai : Except Unit String) : SessionState × Option RouteError :=
  if jsTrim content = "" then (st, some RouteError.invalidInput)
  else if st.session.userId ≠ requester then (st, some RouteError.accessDenied)
  else if st.session.status = StackStatus.completed then
    (st, some RouteError.conflict)
  else
    let userMsg : StackMessage :=
      { id := st.nextId, sessionId := st.session.id, role := Role.user,
        content := jsTrim content, questionNumber := none,
        createdAt := st.nextTime }
    let st1 : SessionState :=
      { st with messages := st.messages ++ [userMsg],
                nextId := st.nextId + 1, nextTime := st.nextTime + 1 }
    match ai with
    | Except.error _ => (st1, some RouteError.upstream)
    | Except.ok aiResponse =>
      let questions := (stackQuestionFlows st.session.stackType).questions
      let nextQuestionIndex := st.session.currentQuestionIndex + 1
      let isLastQuestion : Bool := decide (nextQuestionIndex ≥ questions.length)
      let assistantMsg : StackMessage :=
        { id := st1.nextId, sessionId := st.session.id, role := Role.assistant,
          content := aiResponse,
          questionNumber :=
            if isLastQuestion then none else some (nextQuestionIndex + 1),
          createdAt := st1.nextTime }
      let st2 : SessionState :=
        { st1 with messages := st1.messages ++ [assistantMsg],
                   nextId := st1.nextId + 1, nextTime := st1.nextTime + 1 }
      if isLastQuestion then
        let doneSession :=
          { st2.session with status := StackStatus.completed,
                             completedAt := some st2.nextTime }
        ({ st2 with session := doneSession, nextTime := st2.nextTime + 1 }, none)
      else
        let movedSession :=
          { st2.session with currentQuestionIndex := nextQuestionIndex }
        ({ st2 with session := movedSession }, none)

/-- The force-complete endpoint (`POST /api/stacks/:sessionId/complete`):
after the ownership check it calls `completeStackSession` unconditionally,
regardless of the cursor. -/
def completeSessionRoute (st : SessionState) (requester : String) :
    SessionState × Option RouteError :=
  if st.session.userId ≠ requester then (st, some RouteError.accessDenied)
  else
    let doneSession :=
      { st.session with status := StackStatus.completed,
                        completedAt := some st.nextTime }
    ({ st with session := doneSession, nextTime := st.nextTime + 1 }, none)

/-- The edit-and-rollback operation with the requester identity already
resolved (the body of the PATCH handler after the `userId` line).  Checks in
source order: empty content, session ownership, message existence, message
session, message role.  Then the content of the target is replaced by the trimmed
text and every message of this session created strictly after the target is
deleted (`deleteMessagesAfter` is modelled from the spec: it removes the
messages of the session with `createdAt` strictly greater than the given
timestamp; the storage layer implementing it is not part of the sources).
Finally the cursor is recomputed from the remaining assistant messages and the
session is (re)opened. -/
def editAndRollback (st : SessionState) (requester : String) (messageId : Nat)
    (content : String) : SessionState × Option RouteError :=
  if jsTrim content = "" then (st, some RouteError.invalidInput)
  else if st.session.userId ≠ requester then (st, some RouteError.accessDenied)
  else
    match st.messages.find? (fun m => m.id = messageId) with
    | none => (st, some RouteError.notFound)
    | some message =>
      if message.sessionId ≠ st.session.id then
        (st, some RouteError.wrongSession)
      else if message.role ≠ Role.user then
        (st, some RouteError.invalidRole)
      else
        let updated := st.messages.map (fun msg =>
          if msg.id = messageId then { msg with content := jsTrim content }
          else msg)
        let afterDelete := updated.filter (fun msg =>
          msg.sessionId ≠ st.session.id ∨ msg.createdAt ≤ message.createdAt)
        let remaining := afterDelete.filter (fun msg =>
          msg.sessionId = st.session.id)
        let assistantMessages := remaining.filter (fun msg =>
          msg.role = Role.assistant)
        let newQuestionIndex := assistantMessages.length - 1
        let reopenedSession :=
          { st.session with currentQuestionIndex := newQuestionIndex,
                            status := StackStatus.in_progress,
                            completedAt := none }
        ({ st with messages := afterDelete, session := reopenedSession }, none)

/-- JavaScript `s.charAt(0).toUpperCase() + s.slice(1)` as used by the export
handler on the stack type and domain strings. -/
def capitalizeFirst (s : String) : String :=
  match s.data with
  | [] => ""
  | c :: rest => String.mk (c.toUpper :: rest)

/-- The string stored in the `stack_type` varchar column. -/
def stackTypeString : StackType → String
  | StackType.gratitude => "gratitude"
  | StackType.idea => "idea"
  | StackType.discover => "discover"
  | StackType.angry => "angry"

/-- Rendering of a nullable text column inside a JavaScript template literal
(`null` prints as the string `"null"`). -/
def jsOptString : Option String → String
  | none => "null"
  | some s => s

/-- The label of an assistant block: `message.questionNumber || index + 1`
(JavaScript `||`, so both `null` and `0` fall back to `index + 1`). -/
def jsQuestionLabel (questionNumber : Option Nat) (idx : Nat) : Nat :=
  match questionNumber with
  | none => idx + 1
  | some n => if n = 0 then idx + 1 else n

/-- The per-message blocks of the export transcript (`messages.forEach` with
its running index). -/
def transcriptBlocks : Nat → List StackMessage → String
  | _, [] => ""
  | idx, m :: rest =>
    (if m.role = Role.assistant then
      "Question " ++ toString (jsQuestionLabel m.questionNumber idx) ++ ":\n" ++
        m.content ++ "\n\n"
    else
      "Your Response:\n" ++ m.content ++ "\n\n---\n\n") ++
    transcriptBlocks (idx + 1) rest

/-- The transcript document built by `GET /api/stacks/:sessionId/export`.
`nowIso` is the ISO rendering of the wall clock at the moment of the request:
the handler derives the `Date:` header from it (everything before the first
capital letter T) and stamps it
verbatim into the `Generated:` footer. -/
def exportTranscript (session : StackSession) (messages : List StackMessage)
    (nowIso : String) : String :=
  let timestamp := jsSplitHead ('T') nowIso
  "MindGrowth Stack Transcript\n" ++
  "================================\n\n" ++
  "Title: " ++ session.title ++ "\n" ++
  "Stack Type: " ++ capitalizeFirst (stackTypeString session.stackType) ++ "\n" ++
  "CORE 4 Domain: " ++ capitalizeFirst session.core4Domain ++ "\n" ++
  "Subject: " ++ jsOptString session.subjectEntity ++ "\n" ++
  "Date: " ++ timestamp ++ "\n" ++
  "Status: " ++ (if session.status = StackStatus.completed then ("Completed")
                 else ("In Progress")) ++ "\n" ++
  "\n================================\n\n" ++
  transcriptBlocks 0 messages ++
  "\n================================\n" ++
  "End of Transcript\n" ++
  "Generated: " ++ nowIso ++ "\n"

/-- The export route for an owner request: the transcript over the
messages of the session. -/
def exportRoute (st : SessionState) (nowIso : String) : String :=
  exportTranscript st.session (sessMsgs st) nowIso

/-- The `sub` claim of a Clerk session token, the shape the edit handler
expects behind `req.user.claims`. -/
structure ClerkSessionClaims where
  sub : String
  deriving DecidableEq, Repr

/-- The request object after the authentication middleware ran.  `userId` is
the field `clerkAuth.isAuthenticated` attaches; `user` is the legacy
`req.user` object that only the old Replit auth middleware populated. -/
structure AuthedRequest where
  userId : Option String
  user : Option ClerkSessionClaims
  deriving DecidableEq, Repr

/-- `clerkAuth.isAuthenticated`: rejects when Clerk reports no user id,
otherwise attaches `req.userId` — and only `req.userId`; `req.user` is left
unset. -/
def clerkIsAuthenticated (authUserId : Option String) : Option AuthedRequest :=
  match authUserId with
  | none => none
  | some uid => some { userId := some uid, user := none }

/-- The PATCH edit handler as registered in the Clerk-based routes file: it
reads the requester identity from `req.user.claims.sub` before touching any
state.  When `req.user` is absent that dereference throws, the surrounding
`try/catch` answers HTTP 500, and no state is read or written. -/
def editMessageRoute (req : AuthedRequest) (st : SessionState)
    (messageId : Nat) (content : String) : SessionState × Option RouteError :=
  match req.user with
  | none => (st, some RouteError.internalError)
  | some claims => editAndRollback st claims.sub messageId content

/-- A document of the `message_embeddings` Mongo collection
(`VectorDocument` in `server/mongodb-vector.ts`). -/
structure VectorDoc where
  docId : String
  embedding : List Int
  userId : String
  sessionId : String
  content : String
  createdAt : Nat
  deriving DecidableEq, Repr

/-- One ranked result of `semanticSearch` (the Pinecone-compatible shape the
function maps Mongo documents to). -/
structure SearchMatch where
  matchId : String
  score : Int
  userId : String
  sessionId : String
  content : String
  deriving DecidableEq, Repr

/-- The external effects `mongodb-vector.ts` depends on: the lazily
initialized Mongo connection, the Cohere embedding call, the
`$vectorSearch` aggregation (given query vector, `numCandidates`, `limit` and
the owner filter) and the `updateOne` upsert.  Each can fail with a thrown
error, modelled as `Except.error`. -/
structure VectorEnv where
  mongoInit : Except String Unit
  embed : String → Except String (List Int)
  vectorQuery : List Int → Nat → Nat → String → Except String (List (VectorDoc × Int))
  upsertWrite : VectorDoc → Except String Unit

/-- The body of `semanticSearch` inside its `try`: connect, embed the query
(truncated to 8000 characters), run the vector search scoped to the owner,
map the documents to the result shape. -/
def semanticSearchBody (env : VectorEnv) (userId query : String)
    (topK : Nat) : Except String (List SearchMatch) := do
  _ ← env.mongoInit
  let v ← env.embed (jsTake query 8000)
  let docs ← env.vectorQuery v (topK * 10) topK userId
  pure (docs.map (fun d =>
    { matchId := d.1.docId, score := d.2, userId := d.1.userId,
      sessionId := d.1.sessionId, content := d.1.content }))

/-- `semanticSearch`: the whole body is wrapped in `try/catch`; any error is
logged and the empty list is returned. -/
def semanticSearch (env : VectorEnv) (userId query : String)
    (topK : Nat) : List SearchMatch :=
  match semanticSearchBody env userId query topK with
  | Except.error _ => []
  | Except.ok r => r

/-- The body of `upsertMessageEmbedding` inside its `try`: connect, embed the
content (truncated to 8000 characters), build the document with a 500
character preview, and write it. -/
def upsertBody (env : VectorEnv) (messageId userId sessionId content : String)
    (now : Nat) : Except String VectorDoc := do
  _ ← env.mongoInit
  let e ← env.embed (jsTake content 8000)
  let doc : VectorDoc :=
    { docId := messageId, embedding := e, userId := userId,
      sessionId := sessionId, content := jsTake content 500, createdAt := now }
  _ ← env.upsertWrite doc
  pure doc

/-- `upsertMessageEmbedding`: the whole body is wrapped in `try/catch` with a
comment that embedding failures must not break the app; on any error it logs
and returns normally having written nothing. -/
def upsertMessageEmbedding (env : VectorEnv)
    (messageId userId sessionId content : String) (now : Nat) :
    Option VectorDoc :=
  match upsertBody env messageId userId sessionId content now with
  | Except.error _ => none
  | Except.ok d => some d

/-- The `POST /api/stacks/search` handler: 400 when the query is missing,
otherwise 200 with whatever `semanticSearch` returns. -/
def searchStacksRoute (env : VectorEnv) (userId query : String)
    (limit : Nat) : Nat × List SearchMatch :=
  if query = "" then (400, [])
  else (200, semanticSearch env userId query limit)

/-- Concrete session used throughout the scenario proofs: a `gratitude`
stack with subject `"my sister"`. -/
def exCreate : SessionState :=
  createStack ("user-1") ("My Title") StackType.gratitude ("mind")
    ("my sister") ("sess-1") 0 0

/-- The scenario state after `n` successful answers, each advancing through
`advance` with a generated reply. -/
def advN : Nat → SessionState
  | 0 => exCreate
  | n + 1 => (advance (advN n) ("user-1") ("answer") (Except.ok ("ok"))).1

/-- The scenario session right after force-completion. -/
def exCompleted : SessionState := (completeSessionRoute exCreate ("user-1")).1

/-- A user message stored under a different session id, sharing the table with
the scenario session. -/
def foreignMsg : StackMessage :=
  { id := 77, sessionId := "sess-2", role := Role.user, content := "other",
    questionNumber := none, createdAt := 0 }

/-- The scenario state with a message of a foreign session in the table. -/
def exForeign : SessionState :=
  { exCreate with messages := exCreate.messages ++ [foreignMsg] }

/-- An effects environment whose embedding service and vector store are both
down. -/
def failingVectorEnv : VectorEnv :=
  { mongoInit := Except.ok (),
    embed := fun _ => Except.error ("embedding service down"),
    vectorQuery := fun _ _ _ _ => Except.error ("vector store down"),
    upsertWrite := fun _ => Except.error ("vector store down") }

/-- The message table keys each row by a unique id (`gen_random_uuid()`
primary keys). -/
def idsDistinct (st : SessionState) : Prop :=
  (st.messages.map (fun m => m.id)).Nodup

instance (st : SessionState) : Decidable (idsDistinct st) := by
  unfold idsDistinct
  infer_instance

/-- The state a successful edit-and-rollback produces: the table with the
target content replaced and the session truncated after the target, and the
session row reopened at the recomputed cursor. -/
def rollbackResult (st : SessionState) (targetId : Nat) (newContent : String)
    (t : Nat) : SessionState :=
  let afterDelete := (st.messages.map (fun msg =>
      if msg.id = targetId then { msg with content := newContent }
      else msg)).filter (fun msg =>
      msg.sessionId ≠ st.session.id ∨ msg.createdAt ≤ t)
  let assistantMessages := (afterDelete.filter (fun msg =>
      msg.sessionId = st.session.id)).filter (fun msg =>
      msg.role = Role.assistant)
  let reopenedSession :=
    { st.session with currentQuestionIndex := assistantMessages.length - 1,
                      status := StackStatus.in_progress,
                      completedAt := none }
  { st with messages := afterDelete, session := reopenedSession }

/-- The user message `advance` commits. -/
def advanceUserMsg (st : SessionState) (content : String) : StackMessage :=
  { id := st.nextId, sessionId := st.session.id, role := Role.user,
    content := jsTrim content, questionNumber := none,
    createdAt := st.nextTime }

/-- The assistant message `advance` commits on a successful generation. -/
def advanceAssistMsg (st : SessionState) (resp : String)
    (questionNumber : Option Nat) : StackMessage :=
  { id := st.nextId + 1, sessionId := st.session.id, role := Role.assistant,
    content := resp, questionNumber := questionNumber,
    createdAt := st.nextTime + 1 }

/-- State after an advance whose generation call failed: only the user
message was committed. -/
def advanceFailResult (st : SessionState) (content : String) : SessionState :=
  { st with messages := st.messages ++ [advanceUserMsg st content],
            nextId := st.nextId + 1, nextTime := st.nextTime + 1 }

/-- State after a successful non-final advance: both turns committed and the
cursor stepped. -/
def advanceNotLastResult (st : SessionState) (content resp : String) :
    SessionState :=
  let stepped :=
    { st.session with
        currentQuestionIndex := st.session.currentQuestionIndex + 1 }
  { st with
      messages := (st.messages ++ [advanceUserMsg st content]) ++
        [advanceAssistMsg st resp (some (st.session.currentQuestionIndex + 2))],
      nextId := st.nextId + 2, nextTime := st.nextTime + 2,
      session := stepped }

/-- State after a successful final advance: both turns committed (summary
without question number) and the session auto-completed at an unchanged
cursor. -/
def advanceLastResult (st : SessionState) (content resp : String) :
    SessionState :=
  let doneSession :=
    { st.session with status := StackStatus.completed,
                      completedAt := some (st.nextTime + 2) }
  { st with
      messages := (st.messages ++ [advanceUserMsg st content]) ++
        [advanceAssistMsg st resp none],
      nextId := st.nextId + 2, nextTime := st.nextTime + 3,
      session := doneSession }

/-- State after a successful force-complete. -/
def forceCompleteResult (st : SessionState) : SessionState :=
  let doneSession :=
    { st.session with status := StackStatus.completed,
                      completedAt := some st.nextTime }
  { st with session := doneSession, nextTime := st.nextTime + 1 }

/-- Assistant messages of the session created at or before `t`. -/
def assistUpTo (st : SessionState) (t : Nat) : Nat :=
  assistCount ((sessMsgs st).filter (fun m => m.createdAt ≤ t))

/-- Inductive invariant of the reachable session states: the cursor stays
below the question count; in progress the session has at most cursor + 1
assistant messages (at most cursor + 2 ever); every user message sees at most
`questionCount` assistant messages before it; and all timestamps are below
the next fresh one. -/
structure Inv (st : SessionState) : Prop where
  cursor_lt :
    st.session.currentQuestionIndex < questionCount st.session.stackType
  prog_bound : st.session.status = StackStatus.in_progress →
    assistCount (sessMsgs st) ≤ st.session.currentQuestionIndex + 1
  comp_bound :
    assistCount (sessMsgs st) ≤ st.session.currentQuestionIndex + 2
  user_bound : ∀ m ∈ st.messages, m.sessionId = st.session.id →
    m.role = Role.user →
    assistUpTo st m.createdAt ≤ questionCount st.session.stackType
  ts_lt : ∀ m ∈ st.messages, m.createdAt < st.nextTime

/-- The opening assistant message `createStack` stores. -/
def createInitMsg (stackType : StackType) (subjectEntity sessionId : String)
    (startId startTime : Nat) : StackMessage :=
  { id := startId, sessionId := sessionId, role := Role.assistant,
    content := getInitialQuestion stackType (some subjectEntity),
    questionNumber := some 4, createdAt := startTime }

/-- Reachable states of one session: freshly created, or the result of any
advance, force-complete or edit request on a reachable state (successful or
rejected). -/
inductive Reach : SessionState → Prop where
  | created : ∀ (userId title : String) (stackType : StackType)
      (core4Domain subjectEntity sessionId : String) (startId startTime : Nat),
      Reach (createStack userId title stackType core4Domain subjectEntity
        sessionId startId startTime)
  | advanced : ∀ (st : SessionState) (requester content : String)
      (ai : Except Unit String),
      Reach st → Reach (advance st requester content ai).1
  | forced : ∀ (st : SessionState) (requester : String),
      Reach st → Reach (completeSessionRoute st requester).1
  | edited : ∀ (st : SessionState) (requester : String) (messageId : Nat)
      (content : String),
      Reach st → Reach (editAndRollback st requester messageId content).1

/-- Looking a message up by primary key returns that message when the table
keys are distinct. -/
theorem find_by_id_of_nodup (l : List StackMessage) (m : StackMessage)
    (hl : (l.map (fun x => x.id)).Nodup) (hm : m ∈ l) :
    l.find? (fun x => x.id = m.id) = some m := by
  induction l with
  | nil => cases hm
  | cons a rest ih =>
    rw [List.map_cons, List.nodup_cons] at hl
    rcases List.mem_cons.mp hm with h | h
    · subst h
      simp [List.find?]
    · have hne : a.id ≠ m.id := by
        intro heq
        exact hl.1 (heq ▸ List.mem_map_of_mem (fun x => x.id) h)
      have hdec : decide (a.id = m.id) = false := by
        simp [hne]
      rw [List.find?, hdec]
      exact ih hl.2 h

/-- Claim C9: in the Clerk-based route registration the edit handler alone
reads the requester identity from `req.user.claims.sub`, while the
authentication middleware sets only `req.userId`; so for every authenticated
edit request the `req.user` dereference fails before any state is read or
written, the handler answers HTTP 500, and edit-and-rollback can never
succeed for any caller, including the session owner. -/
theorem c9_clerk_edit_always_500 (uid : String) (req : AuthedRequest)
    (st : SessionState) (messageId : Nat) (content : String)
    (hreq : clerkIsAuthenticated (some uid) = some req) :
    editMessageRoute req st messageId content
      = (st, some RouteError.internalError) ∧
    httpStatus RouteError.internalError = 500 := by
  have : req = { userId := some uid, user := none } := by
    simpa [clerkIsAuthenticated] using hreq.symm
  subst this
  exact ⟨rfl, rfl⟩

/-- Witness for C9: the edit request of the concrete scenario owner dies with 500
and leaves the state untouched. -/
theorem c9_clerk_edit_always_500_witness :
    editMessageRoute { userId := some ("user-1"), user := none } exCreate 0 ("hi")
      = (exCreate, some RouteError.internalError) ∧
    httpStatus RouteError.internalError = 500 :=
  c9_clerk_edit_always_500 ("user-1") _ exCreate 0 ("hi") rfl

/-- Claim C10: `semanticSearch` and `upsertMessageEmbedding` are total at
their public boundary — whatever external stage fails, they return normally:
the search returns the empty list, so `POST /api/stacks/search` answers 200
with `[]` rather than 500, and the upsert returns having written nothing. -/
theorem c10_vector_boundary_total :
    (∀ env uid query topK e,
      semanticSearchBody env uid query topK = Except.error e →
      semanticSearch env uid query topK = []) ∧
    (∀ env uid query limit e, query ≠ "" →
      semanticSearchBody env uid query limit = Except.error e →
      searchStacksRoute env uid query limit = (200, [])) ∧
    (∀ env mid uid sid content now e,
      upsertBody env mid uid sid content now = Except.error e →
      upsertMessageEmbedding env mid uid sid content now = none) := by
  refine ⟨?_, ?_, ?_⟩
  · intro env uid query topK e h
    simp [semanticSearch, h]
  · intro env uid query limit e hq h
    simp [searchStacksRoute, hq, semanticSearch, h]
  · intro env mid uid sid content now e h
    simp [upsertMessageEmbedding, h]

/-- Witness for C10: with the embedding service down, the search route still
answers 200 with no results and the upsert writes nothing. -/
theorem c10_vector_boundary_total_witness :
    semanticSearch failingVectorEnv ("u") ("q") 10 = [] ∧
    searchStacksRoute failingVectorEnv ("u") ("q") 10 = (200, []) ∧
    upsertMessageEmbedding failingVectorEnv ("m") ("u") ("s") ("text") 0 = none :=
  ⟨c10_vector_boundary_total.1 failingVectorEnv ("u") ("q") 10
      ("embedding service down") rfl,
   c10_vector_boundary_total.2.1 failingVectorEnv ("u") ("q") 10
      ("embedding service down") (by decide) rfl,
   c10_vector_boundary_total.2.2 failingVectorEnv ("m") ("u") ("s") ("text") 0
      ("embedding service down") rfl⟩

/-- Counterexample to claim C2 as stated: on a completed session an answer
that is empty after trimming is rejected with InvalidInput, not with the
claimed ConflictError (the empty-content check runs before the
completed-session check). -/
theorem c2_counterexample :
    exCompleted.session.status = StackStatus.completed ∧
    (advance exCompleted ("user-1") ("") (Except.ok ("ok"))).2
      = some RouteError.invalidInput ∧
    some RouteError.invalidInput ≠ some RouteError.conflict := by decide

/-- Claim C2 amended: on a completed session, advance with an answer that is
non-empty after trimming rejects with ConflictError (HTTP 400) and mutates no
state; and for every session, advance with an answer that is empty after
trimming rejects with InvalidInput (HTTP 400) and mutates no state. -/
theorem c2_amended (st : SessionState) (requester content : String)
    (ai : Except Unit String) :
    (st.session.status = StackStatus.completed →
      st.session.userId = requester → jsTrim content ≠ "" →
      advance st requester content ai = (st, some RouteError.conflict) ∧
      httpStatus RouteError.conflict = 400) ∧
    (jsTrim content = "" →
      advance st requester content ai = (st, some RouteError.invalidInput) ∧
      httpStatus RouteError.invalidInput = 400) := by
  constructor
  · intro hdone hown hc
    refine ⟨?_, rfl⟩
    simp [advance, hc, hown, hdone]
  · intro hc
    refine ⟨?_, rfl⟩
    simp [advance, hc]

/-- Witness for C2 amended: the concrete completed scenario session rejects a
real answer with ConflictError and a whitespace answer with InvalidInput,
both leaving the state unchanged. -/
theorem c2_amended_witness :
    (advance exCompleted ("user-1") ("answer") (Except.ok ("ok"))
        = (exCompleted, some RouteError.conflict) ∧
      httpStatus RouteError.conflict = 400) ∧
    (advance exCompleted ("user-1") ("   ") (Except.ok ("ok"))
        = (exCompleted, some RouteError.invalidInput) ∧
      httpStatus RouteError.invalidInput = 400) :=
  ⟨(c2_amended exCompleted ("user-1") ("answer") (Except.ok ("ok"))).1
      (by decide) (by decide) (by decide),
   (c2_amended exCompleted ("user-1") ("   ") (Except.ok ("ok"))).2
      (by decide)⟩

/-- Claim C8: when the generation call fails, advance aborts with HTTP 500
and persists no assistant message, but the user message has already been
committed and remains in the transcript, while the cursor and status are
unchanged. -/
theorem c8_generation_failure_partial_persist (st : SessionState)
    (requester content : String)
    (hc : jsTrim content ≠ "") (hown : st.session.userId = requester)
    (hprog : st.session.status = StackStatus.in_progress) :
    advance st requester content (Except.error ()) =
      ({ st with
          messages := st.messages ++
            [{ id := st.nextId, sessionId := st.session.id, role := Role.user,
               content := jsTrim content, questionNumber := none,
               createdAt := st.nextTime }],
          nextId := st.nextId + 1, nextTime := st.nextTime + 1 },
       some RouteError.upstream) ∧
    httpStatus RouteError.upstream = 500 ∧
    assistCount (advance st requester content (Except.error ())).1.messages
      = assistCount st.messages ∧
    (advance st requester content (Except.error ())).1.session = st.session := by
  have hne : st.session.status ≠ StackStatus.completed := by
    rw [hprog]
    intro h
    cases h
  have hmain : advance st requester content (Except.error ()) =
      ({ st with
          messages := st.messages ++
            [{ id := st.nextId, sessionId := st.session.id, role := Role.user,
               content := jsTrim content, questionNumber := none,
               createdAt := st.nextTime }],
          nextId := st.nextId + 1, nextTime := st.nextTime + 1 },
       some RouteError.upstream) := by
    simp [advance, hc, hown, hne]
  refine ⟨hmain, rfl, ?_, ?_⟩
  · rw [hmain]
    simp [assistCount, List.filter_append]
  · rw [hmain]

/-- Witness for C8: a failed generation on the fresh scenario session keeps
the user message, adds no assistant message, and leaves cursor and status
alone. -/
theorem c8_generation_failure_partial_persist_witness :
    advance exCreate ("user-1") ("my answer") (Except.error ()) =
      ({ exCreate with
          messages := exCreate.messages ++
            [{ id := exCreate.nextId, sessionId := exCreate.session.id,
               role := Role.user, content := jsTrim ("my answer"),
               questionNumber := none, createdAt := exCreate.nextTime }],
          nextId := exCreate.nextId + 1, nextTime := exCreate.nextTime + 1 },
       some RouteError.upstream) ∧
    httpStatus RouteError.upstream = 500 ∧
    assistCount (advance exCreate ("user-1") ("my answer") (Except.error ())).1.messages
      = assistCount exCreate.messages ∧
    (advance exCreate ("user-1") ("my answer") (Except.error ())).1.session
      = exCreate.session :=
  c8_generation_failure_partial_persist exCreate ("user-1") ("my answer")
    (by decide) (by decide) (by decide)

/-- Counterexample to claim C1 as stated: on the fresh gratitude session
(cursor 3) submitting 11 answers leaves the cursor at 14 but the session is
still in progress, and the 12th answer is accepted rather than rejected with
ConflictError. -/
theorem c1_counterexample :
    (advN 11).session.currentQuestionIndex = 14 ∧
    (advN 11).session.status ≠ StackStatus.completed ∧
    (advance (advN 11) ("user-1") ("answer") (Except.ok ("ok"))).2 = none := by
  decide

/-- Claim C1 amended: the freshly created gratitude session (15 questions,
subject my sister) starts at cursor 3 with exactly one assistant message
numbered 4; submitting TWELVE answers brings the cursor to 14 and completes
the session with a final summary message whose question number is null; a
13th answer is rejected with ConflictError and leaves the state unchanged. -/
theorem c1_amended :
    exCreate.session.currentQuestionIndex = 3 ∧
    exCreate.session.status = StackStatus.in_progress ∧
    (exCreate.messages.filter (fun m =>
        m.role = Role.assistant ∧ m.questionNumber = some 4)).length = 1 ∧
    exCreate.messages.length = 1 ∧
    (advN 12).session.currentQuestionIndex = 14 ∧
    (advN 12).session.status = StackStatus.completed ∧
    ((advN 12).messages.getLast?).map (fun m => (m.role, m.questionNumber))
      = some (Role.assistant, none) ∧
    advance (advN 12) ("user-1") ("answer") (Except.ok ("ok"))
      = (advN 12, some RouteError.conflict) := by
  decide

set_option maxRecDepth 100000 in
/-- Counterexample to claim C7 as stated: two export calls with no
intervening writes are not byte-identical when the wall clock has moved,
because the handler stamps the current time into the Date and Generated
lines. -/
theorem c7_counterexample :
    exportRoute exCreate ("2025-01-01T00:00:00.000Z") ≠
      exportRoute exCreate ("2025-01-01T00:00:01.000Z") := by
  decide

/-- Claim C7 amended: the export is a pure function of the displayed fields of
the session row (title, stack type, domain, subject, status), the message
list and the clock reading; two calls with no intervening writes and an
unchanged clock reading are byte-identical, while calls at different clock
readings may differ in the Date and Generated lines. -/
theorem c7_amended (s1 s2 : StackSession) (msgs : List StackMessage)
    (now1 now2 : String)
    (ht : s1.title = s2.title) (hty : s1.stackType = s2.stackType)
    (hd : s1.core4Domain = s2.core4Domain)
    (hsub : s1.subjectEntity = s2.subjectEntity)
    (hst : s1.status = s2.status) (hnow : now1 = now2) :
    exportTranscript s1 msgs now1 = exportTranscript s2 msgs now2 := by
  simp [exportTranscript, ht, hty, hd, hsub, hst, hnow]

/-- Witness for C7 amended: the export ignores the cursor, the completion
timestamp and the owner id, so a write to those fields alone cannot change
the bytes. -/
theorem c7_amended_witness :
    exportTranscript exCreate.session (sessMsgs exCreate)
        ("2025-01-01T00:00:00.000Z") =
      exportTranscript
        { exCreate.session with currentQuestionIndex := 99,
                                completedAt := some 5, userId := "someone" }
        (sessMsgs exCreate) ("2025-01-01T00:00:00.000Z") :=
  c7_amended _ _ (sessMsgs exCreate) _ _ rfl rfl rfl rfl rfl rfl

/-- Counterexample to claim C5 as stated: editing a message that exists but
belongs to a different session is rejected with HTTP 400 (wrong session),
not with the claimed MessageNotFound 404. -/
theorem c5_counterexample :
    (editAndRollback exForeign ("user-1") 77 ("new text")).2
      = some RouteError.wrongSession ∧
    httpStatus RouteError.wrongSession = 400 ∧
    httpStatus RouteError.wrongSession ≠ 404 := by
  decide

/-- Claim C5 amended: on an edit request, empty-after-trim text is rejected
with InvalidInput 400 (checked first); a target id that does not exist is
rejected with MessageNotFound 404; a target that exists but belongs to a
different session is rejected with HTTP 400, not 404; an assistant-authored
target of this session is rejected with InvalidRole 400. -/
theorem c5_amended (st : SessionState) (requester content : String)
    (messageId : Nat) :
    (jsTrim content = "" →
      (editAndRollback st requester messageId content).2
        = some RouteError.invalidInput ∧
      httpStatus RouteError.invalidInput = 400) ∧
    (jsTrim content ≠ "" → st.session.userId = requester →
      st.messages.find? (fun x => x.id = messageId) = none →
      (editAndRollback st requester messageId content).2
        = some RouteError.notFound ∧
      httpStatus RouteError.notFound = 404) ∧
    (∀ m, jsTrim content ≠ "" → st.session.userId = requester →
      st.messages.find? (fun x => x.id = messageId) = some m →
      m.sessionId ≠ st.session.id →
      (editAndRollback st requester messageId content).2
        = some RouteError.wrongSession ∧
      httpStatus RouteError.wrongSession = 400) ∧
    (∀ m, jsTrim content ≠ "" → st.session.userId = requester →
      st.messages.find? (fun x => x.id = messageId) = some m →
      m.sessionId = st.session.id → m.role = Role.assistant →
      (editAndRollback st requester messageId content).2
        = some RouteError.invalidRole ∧
      httpStatus RouteError.invalidRole = 400) := by
  refine ⟨?_, ?_, ?_, ?_⟩
  · intro hc
    exact ⟨by simp [editAndRollback, hc], rfl⟩
  · intro hc hown hfind
    exact ⟨by simp [editAndRollback, hc, hown, hfind], rfl⟩
  · intro m hc hown hfind hsess
    exact ⟨by simp [editAndRollback, hc, hown, hfind, hsess], rfl⟩
  · intro m hc hown hfind hsess hrole
    have hne : m.role ≠ Role.user := by
      rw [hrole]
      intro h
      cases h
    exact ⟨by simp [editAndRollback, hc, hown, hfind, hsess, hne], rfl⟩

/-- Witness for C5 amended: all four rejection shapes observed on concrete
states — whitespace text, an unknown id, the foreign-session message, and the
opening assistant message. -/
theorem c5_amended_witness :
    ((editAndRollback exCreate ("user-1") 0 (" ")).2
        = some RouteError.invalidInput ∧
      httpStatus RouteError.invalidInput = 400) ∧
    ((editAndRollback exCreate ("user-1") 999 ("new text")).2
        = some RouteError.notFound ∧
      httpStatus RouteError.notFound = 404) ∧
    ((editAndRollback exForeign ("user-1") 77 ("new text")).2
        = some RouteError.wrongSession ∧
      httpStatus RouteError.wrongSession = 400) ∧
    ((editAndRollback exCreate ("user-1") 0 ("new text")).2
        = some RouteError.invalidRole ∧
      httpStatus RouteError.invalidRole = 400) :=
  ⟨(c5_amended exCreate ("user-1") (" ") 0).1 (by decide),
   (c5_amended exCreate ("user-1") ("new text") 999).2.1
      (by decide) (by decide) (by decide),
   (c5_amended exForeign ("user-1") ("new text") 77).2.2.1 foreignMsg
      (by decide) (by decide) (by decide) (by decide),
   (c5_amended exCreate ("user-1") ("new text") 0).2.2.2
      (exCreate.messages.headD foreignMsg)
      (by decide) (by decide) (by decide) (by decide) (by decide)⟩


/-- Shape of a successful edit: all checks pass and the result is
`rollbackResult` with the trimmed text at the target timestamp. -/
theorem editAndRollback_success (st : SessionState) (requester content : String)
    (m : StackMessage)
    (hc : jsTrim content ≠ "") (hown : st.session.userId = requester)
    (hfind : st.messages.find? (fun x => x.id = m.id) = some m)
    (hsess : m.sessionId = st.session.id) (hrole : m.role = Role.user) :
    editAndRollback st requester m.id content
      = (rollbackResult st m.id (jsTrim content) m.createdAt, none) := by
  simp [editAndRollback, rollbackResult, hc, hown, hfind, hsess, hrole]

/-- Restricting the rolled-back table to the session commutes with first
restricting and then editing and truncating. -/
theorem rollback_filter_comm (sid : String) (t targetId : Nat)
    (newContent : String) (L : List StackMessage) :
    ((L.map (fun msg =>
        if msg.id = targetId then { msg with content := newContent }
        else msg)).filter (fun msg =>
        msg.sessionId ≠ sid ∨ msg.createdAt ≤ t)).filter (fun msg =>
        msg.sessionId = sid)
      = ((L.filter (fun msg => msg.sessionId = sid)).map (fun msg =>
          if msg.id = targetId then { msg with content := newContent }
          else msg)).filter (fun msg => msg.createdAt ≤ t) := by
  rw [List.filter_filter, List.filter_map, List.filter_map, List.filter_filter]
  refine congrArg _ (List.filter_congr ?_)
  intro a ha
  have h1 : ((if a.id = targetId then { a with content := newContent }
      else a) : StackMessage).sessionId = a.sessionId := by
    by_cases h : a.id = targetId <;> simp [h]
  have h2 : ((if a.id = targetId then { a with content := newContent }
      else a) : StackMessage).createdAt = a.createdAt := by
    by_cases h : a.id = targetId <;> simp [h]
  simp only [Function.comp_apply, h1, h2]
  by_cases hs : a.sessionId = sid <;> by_cases ht2 : a.createdAt ≤ t <;>
    simp [hs, ht2]

/-- Counterexample to claim C3 as stated: the code stores the TRIMMED text,
so editing the first scenario answer to a text with trailing whitespace does
not leave the content of the target equal to the new text. -/
theorem c3_counterexample :
    ((editAndRollback (advN 12) ("user-1") 1 ("new ")).1.messages.find?
        (fun x => x.id = 1)).map (fun x => x.content) = some ("new") ∧
    ("new" : String) ≠ "new " := by
  decide

/-- Claim C3 amended: for every session, every user-authored message `m` of
it and every text that is non-empty after trimming, the edit succeeds and the
remaining transcript is exactly the original messages with timestamp at most
`m.createdAt`, unchanged except that `m.content` equals the TRIMMED new text;
no message with a strictly greater timestamp remains. -/
theorem c3_edit_frame (st : SessionState) (requester content : String)
    (m : StackMessage)
    (hdist : idsDistinct st) (hmem : m ∈ st.messages)
    (hrole : m.role = Role.user) (hsess : m.sessionId = st.session.id)
    (hown : st.session.userId = requester) (hc : jsTrim content ≠ "") :
    (editAndRollback st requester m.id content).2 = none ∧
    sessMsgs (editAndRollback st requester m.id content).1
      = ((sessMsgs st).map (fun msg =>
          if msg.id = m.id then { msg with content := jsTrim content }
          else msg)).filter (fun msg => msg.createdAt ≤ m.createdAt) ∧
    ∀ x ∈ sessMsgs (editAndRollback st requester m.id content).1,
      x.createdAt ≤ m.createdAt := by
  have hfind := find_by_id_of_nodup st.messages m hdist hmem
  have hshape := editAndRollback_success st requester content m hc hown hfind
    hsess hrole
  have heq : sessMsgs (editAndRollback st requester m.id content).1
      = ((sessMsgs st).map (fun msg =>
          if msg.id = m.id then { msg with content := jsTrim content }
          else msg)).filter (fun msg => msg.createdAt ≤ m.createdAt) := by
    rw [hshape]
    exact rollback_filter_comm st.session.id m.createdAt m.id (jsTrim content)
      st.messages
  refine ⟨by rw [hshape], heq, ?_⟩
  intro x hx
  rw [heq] at hx
  exact of_decide_eq_true (List.mem_filter.mp hx).2

/-- Witness for C3 amended: editing the first scenario answer of the
completed run truncates the transcript at that answer and stores the trimmed
text. -/
theorem c3_edit_frame_witness :
    (editAndRollback (advN 12) ("user-1") 1 ("better answer ")).2 = none ∧
    sessMsgs (editAndRollback (advN 12) ("user-1") 1 ("better answer ")).1
      = ((sessMsgs (advN 12)).map (fun msg =>
          if msg.id = 1 then { msg with content := jsTrim ("better answer ") }
          else msg)).filter (fun msg => msg.createdAt ≤ 1) ∧
    ∀ x ∈ sessMsgs (editAndRollback (advN 12) ("user-1") 1 ("better answer ")).1,
      x.createdAt ≤ 1 :=
  c3_edit_frame (advN 12) ("user-1") ("better answer ")
    { id := 1, sessionId := "sess-1", role := Role.user, content := "answer",
      questionNumber := none, createdAt := 1 }
    (by decide) (by decide) (by decide) (by decide) (by decide) (by decide)

/-- Claim C4: after a successful edit-and-rollback the cursor equals
`max(0, remaining assistant count - 1)`, the status is `in_progress`, and
the completion timestamp is absent — in particular a completed session is
reverted to in progress. -/
theorem c4_cursor_after_edit (st : SessionState) (requester content : String)
    (m : StackMessage)
    (hdist : idsDistinct st) (hmem : m ∈ st.messages)
    (hrole : m.role = Role.user) (hsess : m.sessionId = st.session.id)
    (hown : st.session.userId = requester) (hc : jsTrim content ≠ "") :
    (editAndRollback st requester m.id content).2 = none ∧
    (editAndRollback st requester m.id content).1.session.currentQuestionIndex
      = max 0
          (assistCount (sessMsgs (editAndRollback st requester m.id content).1)
            - 1) ∧
    (editAndRollback st requester m.id content).1.session.status
      = StackStatus.in_progress ∧
    (editAndRollback st requester m.id content).1.session.completedAt
      = none := by
  have hfind := find_by_id_of_nodup st.messages m hdist hmem
  have hshape := editAndRollback_success st requester content m hc hown hfind
    hsess hrole
  rw [hshape]
  refine ⟨rfl, ?_, rfl, rfl⟩
  exact (Nat.zero_max _).symm

/-- Witness for C4: editing the first answer of the completed scenario run
reopens the session at cursor `max(0, assistants - 1)` with no completion
timestamp. -/
theorem c4_cursor_after_edit_witness :
    (editAndRollback (advN 12) ("user-1") 1 ("better")).2 = none ∧
    (editAndRollback (advN 12) ("user-1") 1 ("better")).1.session.currentQuestionIndex
      = max 0
          (assistCount (sessMsgs (editAndRollback (advN 12) ("user-1") 1 ("better")).1)
            - 1) ∧
    (editAndRollback (advN 12) ("user-1") 1 ("better")).1.session.status
      = StackStatus.in_progress ∧
    (editAndRollback (advN 12) ("user-1") 1 ("better")).1.session.completedAt
      = none :=
  c4_cursor_after_edit (advN 12) ("user-1") ("better")
    { id := 1, sessionId := "sess-1", role := Role.user, content := "answer",
      questionNumber := none, createdAt := 1 }
    (by decide) (by decide) (by decide) (by decide) (by decide) (by decide)

/-- Assistant-message count agrees with `countP`. -/
theorem assistCount_eq_countP (l : List StackMessage) :
    assistCount l = l.countP (fun m => m.role = Role.assistant) := by
  simp [assistCount, List.countP_eq_length_filter]

/-- Assistant-message count distributes over append. -/
theorem assistCount_append (l1 l2 : List StackMessage) :
    assistCount (l1 ++ l2) = assistCount l1 + assistCount l2 := by
  simp [assistCount, List.filter_append]

/-- Filtering can only lose assistant messages. -/
theorem assistCount_filter_le (p : StackMessage → Bool) (l : List StackMessage) :
    assistCount (l.filter p) ≤ assistCount l := by
  rw [assistCount_eq_countP, assistCount_eq_countP, List.countP_filter]
  refine List.countP_mono_left (fun x _ hx => ?_)
  exact (Bool.and_eq_true _ _).mp hx |>.1

/-- The edit substitution keeps the session id. -/
theorem editTarget_sessionId (targetId : Nat) (newContent : String)
    (x : StackMessage) :
    ((if x.id = targetId then { x with content := newContent }
      else x) : StackMessage).sessionId = x.sessionId := by
  by_cases h : x.id = targetId <;> simp [h]

/-- The edit substitution keeps the role. -/
theorem editTarget_role (targetId : Nat) (newContent : String)
    (x : StackMessage) :
    ((if x.id = targetId then { x with content := newContent }
      else x) : StackMessage).role = x.role := by
  by_cases h : x.id = targetId <;> simp [h]

/-- The edit substitution keeps the creation timestamp. -/
theorem editTarget_createdAt (targetId : Nat) (newContent : String)
    (x : StackMessage) :
    ((if x.id = targetId then { x with content := newContent }
      else x) : StackMessage).createdAt = x.createdAt := by
  by_cases h : x.id = targetId <;> simp [h]

/-- Every question table has at least the three setup questions plus one. -/
theorem questionCount_ge_four (t : StackType) : 4 ≤ questionCount t := by
  cases t <;> decide

/-- The declared `totalQuestions` agrees with the length the advance handler
consults. -/
theorem totalQuestions_eq_questionCount (t : StackType) :
    (stackQuestionFlows t).totalQuestions = questionCount t := by
  cases t <;> rfl

/-- A non-completed status is `in_progress`. -/
theorem status_in_progress_of_ne (s : StackStatus)
    (h : s ≠ StackStatus.completed) : s = StackStatus.in_progress := by
  cases s
  · rfl
  · exact absurd rfl h






/-- Shape of an advance on a rejected request: the state is untouched. -/
theorem advance_reject_shape (st : SessionState) (r c : String)
    (ai : Except Unit String) :
    (jsTrim c = "" → advance st r c ai = (st, some RouteError.invalidInput)) ∧
    (st.session.userId ≠ r →
      jsTrim c ≠ "" → advance st r c ai = (st, some RouteError.accessDenied)) ∧
    (st.session.status = StackStatus.completed → st.session.userId = r →
      jsTrim c ≠ "" → advance st r c ai = (st, some RouteError.conflict)) := by
  refine ⟨?_, ?_, ?_⟩
  · intro h1
    simp [advance, h1]
  · intro h2 h1
    simp [advance, h1, h2]
  · intro h3 h2 h1
    simp [advance, h1, h2, h3]

/-- Shape of an advance whose generation call failed. -/
theorem advance_fail_shape (st : SessionState) (r c : String)
    (h1 : jsTrim c ≠ "") (h2 : st.session.userId = r)
    (h3 : st.session.status ≠ StackStatus.completed) :
    advance st r c (Except.error ())
      = (advanceFailResult st c, some RouteError.upstream) := by
  simp [advance, advanceFailResult, advanceUserMsg, h1, h2, h3]

/-- Shape of a successful non-final advance. -/
theorem advance_ok_not_last_shape (st : SessionState) (r c resp : String)
    (h1 : jsTrim c ≠ "") (h2 : st.session.userId = r)
    (h3 : st.session.status ≠ StackStatus.completed)
    (hnl : ¬ st.session.currentQuestionIndex + 1
        ≥ questionCount st.session.stackType) :
    advance st r c (Except.ok resp) = (advanceNotLastResult st c resp, none) := by
  have hnl2 : ¬ (stackQuestionFlows st.session.stackType).questions.length
      ≤ st.session.currentQuestionIndex + 1 := by
    simpa [questionCount, ge_iff_le] using hnl
  simp [advance, advanceNotLastResult, advanceUserMsg, advanceAssistMsg,
    h1, h2, h3, hnl2]

/-- Shape of a successful final advance. -/
theorem advance_ok_last_shape (st : SessionState) (r c resp : String)
    (h1 : jsTrim c ≠ "") (h2 : st.session.userId = r)
    (h3 : st.session.status ≠ StackStatus.completed)
    (hl : st.session.currentQuestionIndex + 1
        ≥ questionCount st.session.stackType) :
    advance st r c (Except.ok resp) = (advanceLastResult st c resp, none) := by
  have hl2 : (stackQuestionFlows st.session.stackType).questions.length
      ≤ st.session.currentQuestionIndex + 1 := by
    simpa [questionCount, ge_iff_le] using hl
  simp [advance, advanceLastResult, advanceUserMsg, advanceAssistMsg,
    h1, h2, h3, hl2]


/-- Shape of a successful force-complete. -/
theorem complete_ok_shape (st : SessionState) (r : String)
    (hown : st.session.userId = r) :
    completeSessionRoute st r = (forceCompleteResult st, none) := by
  simp [completeSessionRoute, forceCompleteResult, hown]



/-- Dropping to a sub-filter cannot gain assistant messages. -/
theorem assistCount_filter_filter_le (p q : StackMessage → Bool)
    (l : List StackMessage) :
    assistCount ((l.filter q).filter p) ≤ assistCount (l.filter p) := by
  rw [assistCount_eq_countP, assistCount_eq_countP, List.countP_filter,
    List.countP_filter, List.countP_filter]
  refine List.countP_mono_left (fun x _ hx => ?_)
  have h1 := (Bool.and_eq_true _ _).mp hx
  have h2 := (Bool.and_eq_true _ _).mp h1.1
  exact (Bool.and_eq_true _ _).mpr ⟨h2.1, h2.2⟩

/-- The edit substitution changes no assistant count under a timestamp
filter. -/
theorem assistCount_filter_ts_map_edit (targetId : Nat) (newContent : String)
    (t : Nat) (l : List StackMessage) :
    assistCount ((l.map (fun msg =>
        if msg.id = targetId then { msg with content := newContent }
        else msg)).filter (fun msg => msg.createdAt ≤ t))
      = assistCount (l.filter (fun msg => msg.createdAt ≤ t)) := by
  rw [List.filter_map]
  rw [assistCount_eq_countP, assistCount_eq_countP, List.countP_map]
  have hfe : List.filter ((fun (msg : StackMessage) =>
      decide (msg.createdAt ≤ t)) ∘ (fun msg =>
        if msg.id = targetId then { msg with content := newContent }
        else msg)) l = List.filter (fun msg => decide (msg.createdAt ≤ t)) l := by
    refine List.filter_congr (fun x _ => ?_)
    simp only [Function.comp_apply, editTarget_createdAt]
  rw [hfe]
  refine List.countP_congr (fun x hx => ?_)
  simp only [Function.comp_apply, editTarget_role]

/-- Transcript of the state after a failed-generation advance. -/
theorem sessMsgs_advanceFail (st : SessionState) (c : String) :
    sessMsgs (advanceFailResult st c)
      = sessMsgs st ++ [advanceUserMsg st c] := by
  simp [advanceFailResult, sessMsgs, advanceUserMsg, List.filter_append]

/-- Transcript of the state after a successful non-final advance. -/
theorem sessMsgs_advanceNotLast (st : SessionState) (c resp : String) :
    sessMsgs (advanceNotLastResult st c resp)
      = sessMsgs st ++ [advanceUserMsg st c,
          advanceAssistMsg st resp (some (st.session.currentQuestionIndex + 2))] := by
  simp [advanceNotLastResult, sessMsgs, advanceUserMsg, advanceAssistMsg,
    List.filter_append]

/-- Transcript of the state after a successful final advance. -/
theorem sessMsgs_advanceLast (st : SessionState) (c resp : String) :
    sessMsgs (advanceLastResult st c resp)
      = sessMsgs st ++ [advanceUserMsg st c, advanceAssistMsg st resp none] := by
  simp [advanceLastResult, sessMsgs, advanceUserMsg, advanceAssistMsg,
    List.filter_append]

/-- Transcript of the state after a force-complete. -/
theorem sessMsgs_forceComplete (st : SessionState) :
    sessMsgs (forceCompleteResult st) = sessMsgs st := by
  simp [forceCompleteResult, sessMsgs]


/-- The invariant holds at creation. -/
theorem inv_create (userId title : String) (stackType : StackType)
    (core4Domain subjectEntity sessionId : String) (startId startTime : Nat) :
    Inv (createStack userId title stackType core4Domain subjectEntity
      sessionId startId startTime) := by
  have hq := questionCount_ge_four stackType
  have hcount : assistCount (sessMsgs (createStack userId title stackType
      core4Domain subjectEntity sessionId startId startTime)) = 1 := by
    simp [createStack, sessMsgs, assistCount]
  refine ⟨?_, ?_, ?_, ?_, ?_⟩
  · show (3 : Nat) < questionCount stackType
    omega
  · intro _
    show assistCount _ ≤ 3 + 1
    omega
  · show assistCount _ ≤ 3 + 2
    omega
  · intro m hm hsid hrole
    have hm2 : m = createInitMsg stackType subjectEntity sessionId
        startId startTime := by
      simpa [createStack, createInitMsg] using hm
    rw [hm2] at hrole
    simp [createInitMsg] at hrole
  · intro m hm
    have hm2 : m = createInitMsg stackType subjectEntity sessionId
        startId startTime := by
      simpa [createStack, createInitMsg] using hm
    rw [hm2]
    show startTime < startTime + 1
    omega

/-- The invariant survives an advance whose generation call failed. -/
theorem inv_advanceFail (st : SessionState) (c : String)
    (hprog : st.session.status = StackStatus.in_progress)
    (h : Inv st) : Inv (advanceFailResult st c) := by
  have hq := questionCount_ge_four st.session.stackType
  have hsm := sessMsgs_advanceFail st c
  have hcount : assistCount (sessMsgs (advanceFailResult st c))
      = assistCount (sessMsgs st) := by
    rw [hsm, assistCount_append]
    simp [assistCount, advanceUserMsg]
  have hprogb := h.prog_bound hprog
  have hcur := h.cursor_lt
  refine ⟨h.cursor_lt, ?_, ?_, ?_, ?_⟩
  · intro _
    show assistCount (sessMsgs (advanceFailResult st c))
      ≤ st.session.currentQuestionIndex + 1
    omega
  · show assistCount (sessMsgs (advanceFailResult st c))
      ≤ st.session.currentQuestionIndex + 2
    have := h.comp_bound
    omega
  · intro m hm hsid hrole
    show assistUpTo (advanceFailResult st c) m.createdAt
      ≤ questionCount st.session.stackType
    have hsplit : assistUpTo (advanceFailResult st c) m.createdAt
        ≤ assistUpTo st m.createdAt := by
      unfold assistUpTo
      rw [hsm, List.filter_append, assistCount_append]
      have hz : assistCount ([advanceUserMsg st c].filter
          (fun x => x.createdAt ≤ m.createdAt)) = 0 := by
        have := assistCount_filter_le
          (fun x => decide (x.createdAt ≤ m.createdAt)) [advanceUserMsg st c]
        have h1 : assistCount [advanceUserMsg st c] = 0 := by
          simp [assistCount, advanceUserMsg]
        omega
      omega
    rcases List.mem_append.mp hm with hold | hnew
    · exact le_trans hsplit (h.user_bound m hold hsid hrole)
    · have hmu : m = advanceUserMsg st c := by simpa using hnew
      have hfl : assistUpTo st m.createdAt ≤ assistCount (sessMsgs st) :=
        assistCount_filter_le _ _
      omega
  · intro m hm
    show m.createdAt < st.nextTime + 1
    rcases List.mem_append.mp hm with hold | hnew
    · have := h.ts_lt m hold
      omega
    · have hmu : m = advanceUserMsg st c := by simpa using hnew
      rw [hmu]
      show st.nextTime < st.nextTime + 1
      omega

/-- A successful advance adds exactly one assistant message to the
transcript. -/
theorem assistCount_advanceAppend (st st2 : SessionState) (c resp : String)
    (qn : Option Nat)
    (hsm : sessMsgs st2
      = sessMsgs st ++ [advanceUserMsg st c, advanceAssistMsg st resp qn]) :
    assistCount (sessMsgs st2) = assistCount (sessMsgs st) + 1 := by
  rw [hsm, assistCount_append]
  simp [assistCount, advanceUserMsg, advanceAssistMsg]

/-- Below the committing timestamp, a successful advance adds no assistant
message. -/
theorem assistUpTo_advanceAppend (st st2 : SessionState) (c resp : String)
    (qn : Option Nat)
    (hsm : sessMsgs st2
      = sessMsgs st ++ [advanceUserMsg st c, advanceAssistMsg st resp qn])
    (t : Nat) (ht : t ≤ st.nextTime) :
    assistUpTo st2 t ≤ assistUpTo st t := by
  unfold assistUpTo
  rw [hsm, List.filter_append, assistCount_append]
  have hna : ¬ (st.nextTime + 1 ≤ t) := by omega
  have hz : assistCount ([advanceUserMsg st c,
      advanceAssistMsg st resp qn].filter
        (fun x => x.createdAt ≤ t)) = 0 := by
    by_cases hu : st.nextTime ≤ t <;>
      simp [advanceUserMsg, advanceAssistMsg, assistCount, hna, hu]
  omega

/-- The invariant survives a successful non-final advance. -/
theorem inv_advanceNotLast (st : SessionState) (c resp : String)
    (hprog : st.session.status = StackStatus.in_progress)
    (hnl : ¬ st.session.currentQuestionIndex + 1
        ≥ questionCount st.session.stackType)
    (h : Inv st) : Inv (advanceNotLastResult st c resp) := by
  have hq := questionCount_ge_four st.session.stackType
  have hsm := sessMsgs_advanceNotLast st c resp
  have hcount := assistCount_advanceAppend st (advanceNotLastResult st c resp)
    c resp (some (st.session.currentQuestionIndex + 2)) hsm
  have hprogb := h.prog_bound hprog
  have hcur := h.cursor_lt
  refine ⟨?_, ?_, ?_, ?_, ?_⟩
  · show st.session.currentQuestionIndex + 1
      < questionCount st.session.stackType
    omega
  · intro _
    show assistCount (sessMsgs (advanceNotLastResult st c resp))
      ≤ st.session.currentQuestionIndex + 1 + 1
    omega
  · show assistCount (sessMsgs (advanceNotLastResult st c resp))
      ≤ st.session.currentQuestionIndex + 1 + 2
    omega
  · intro m hm hsid hrole
    show assistUpTo (advanceNotLastResult st c resp) m.createdAt
      ≤ questionCount st.session.stackType
    have hm2 : m ∈ st.messages ∨ m = advanceUserMsg st c ∨
        m = advanceAssistMsg st resp
          (some (st.session.currentQuestionIndex + 2)) := by
      have hmm : m ∈ (st.messages ++ [advanceUserMsg st c]) ++
          [advanceAssistMsg st resp
            (some (st.session.currentQuestionIndex + 2))] := hm
      simpa [List.mem_append, or_assoc] using hmm
    rcases hm2 with hold | hmu | hma
    · have hts : m.createdAt ≤ st.nextTime := le_of_lt (h.ts_lt m hold)
      exact le_trans (assistUpTo_advanceAppend st _ c resp _ hsm m.createdAt hts)
        (h.user_bound m hold hsid hrole)
    · have hts : m.createdAt ≤ st.nextTime := by
        rw [hmu]
        exact le_refl _
      refine le_trans
        (assistUpTo_advanceAppend st _ c resp _ hsm m.createdAt hts) ?_
      have hfl : assistUpTo st m.createdAt ≤ assistCount (sessMsgs st) :=
        assistCount_filter_le _ _
      omega
    · rw [hma] at hrole
      simp [advanceAssistMsg] at hrole
  · intro m hm
    show m.createdAt < st.nextTime + 2
    have hm2 : m ∈ st.messages ∨ m = advanceUserMsg st c ∨
        m = advanceAssistMsg st resp
          (some (st.session.currentQuestionIndex + 2)) := by
      have hmm : m ∈ (st.messages ++ [advanceUserMsg st c]) ++
          [advanceAssistMsg st resp
            (some (st.session.currentQuestionIndex + 2))] := hm
      simpa [List.mem_append, or_assoc] using hmm
    rcases hm2 with hold | hmu | hma
    · have := h.ts_lt m hold
      omega
    · rw [hmu]
      show st.nextTime < st.nextTime + 2
      omega
    · rw [hma]
      show st.nextTime + 1 < st.nextTime + 2
      omega

/-- The invariant survives a successful final advance. -/
theorem inv_advanceLast (st : SessionState) (c resp : String)
    (hprog : st.session.status = StackStatus.in_progress)
    (h : Inv st) : Inv (advanceLastResult st c resp) := by
  have hq := questionCount_ge_four st.session.stackType
  have hsm := sessMsgs_advanceLast st c resp
  have hcount := assistCount_advanceAppend st (advanceLastResult st c resp)
    c resp none hsm
  have hprogb := h.prog_bound hprog
  have hcur := h.cursor_lt
  refine ⟨h.cursor_lt, ?_, ?_, ?_, ?_⟩
  · intro hcontra
    simp [advanceLastResult] at hcontra
  · show assistCount (sessMsgs (advanceLastResult st c resp))
      ≤ st.session.currentQuestionIndex + 2
    omega
  · intro m hm hsid hrole
    show assistUpTo (advanceLastResult st c resp) m.createdAt
      ≤ questionCount st.session.stackType
    have hm2 : m ∈ st.messages ∨ m = advanceUserMsg st c ∨
        m = advanceAssistMsg st resp none := by
      have hmm : m ∈ (st.messages ++ [advanceUserMsg st c]) ++
          [advanceAssistMsg st resp none] := hm
      simpa [List.mem_append, or_assoc] using hmm
    rcases hm2 with hold | hmu | hma
    · have hts : m.createdAt ≤ st.nextTime := le_of_lt (h.ts_lt m hold)
      exact le_trans (assistUpTo_advanceAppend st _ c resp _ hsm m.createdAt hts)
        (h.user_bound m hold hsid hrole)
    · have hts : m.createdAt ≤ st.nextTime := by
        rw [hmu]
        exact le_refl _
      refine le_trans
        (assistUpTo_advanceAppend st _ c resp _ hsm m.createdAt hts) ?_
      have hfl : assistUpTo st m.createdAt ≤ assistCount (sessMsgs st) :=
        assistCount_filter_le _ _
      omega
    · rw [hma] at hrole
      simp [advanceAssistMsg] at hrole
  · intro m hm
    show m.createdAt < st.nextTime + 3
    have hm2 : m ∈ st.messages ∨ m = advanceUserMsg st c ∨
        m = advanceAssistMsg st resp none := by
      have hmm : m ∈ (st.messages ++ [advanceUserMsg st c]) ++
          [advanceAssistMsg st resp none] := hm
      simpa [List.mem_append, or_assoc] using hmm
    rcases hm2 with hold | hmu | hma
    · have := h.ts_lt m hold
      omega
    · rw [hmu]
      show st.nextTime < st.nextTime + 3
      omega
    · rw [hma]
      show st.nextTime + 1 < st.nextTime + 3
      omega

/-- The invariant survives a force-complete. -/
theorem inv_forceComplete (st : SessionState) (h : Inv st) :
    Inv (forceCompleteResult st) := by
  have hsm := sessMsgs_forceComplete st
  refine ⟨h.cursor_lt, ?_, ?_, ?_, ?_⟩
  · intro hcontra
    simp [forceCompleteResult] at hcontra
  · show assistCount (sessMsgs (forceCompleteResult st))
      ≤ st.session.currentQuestionIndex + 2
    rw [hsm]
    exact h.comp_bound
  · intro m hm hsid hrole
    show assistUpTo (forceCompleteResult st) m.createdAt
      ≤ questionCount st.session.stackType
    have heq : assistUpTo (forceCompleteResult st) m.createdAt
        = assistUpTo st m.createdAt := by
      unfold assistUpTo
      rw [hsm]
    rw [heq]
    exact h.user_bound m hm hsid hrole
  · intro m hm
    have := h.ts_lt m hm
    show m.createdAt < st.nextTime + 1
    omega

/-- The invariant survives a successful edit-and-rollback, whose truncation
point is the user message `m0`. -/
theorem inv_rollback (st : SessionState) (targetId : Nat) (newContent : String)
    (m0 : StackMessage)
    (hmem : m0 ∈ st.messages) (hsid : m0.sessionId = st.session.id)
    (hrole : m0.role = Role.user)
    (h : Inv st) : Inv (rollbackResult st targetId newContent m0.createdAt) := by
  have hq := questionCount_ge_four st.session.stackType
  have hsm : sessMsgs (rollbackResult st targetId newContent m0.createdAt)
      = ((sessMsgs st).map (fun msg =>
          if msg.id = targetId then { msg with content := newContent }
          else msg)).filter (fun msg => msg.createdAt ≤ m0.createdAt) :=
    rollback_filter_comm st.session.id m0.createdAt targetId newContent
      st.messages
  have hA : assistCount
      (sessMsgs (rollbackResult st targetId newContent m0.createdAt))
      ≤ questionCount st.session.stackType := by
    rw [hsm, assistCount_filter_ts_map_edit]
    exact h.user_bound m0 hmem hsid hrole
  refine ⟨?_, ?_, ?_, ?_, ?_⟩
  · show assistCount
        (sessMsgs (rollbackResult st targetId newContent m0.createdAt)) - 1
      < questionCount st.session.stackType
    omega
  · intro _
    show assistCount
        (sessMsgs (rollbackResult st targetId newContent m0.createdAt))
      ≤ assistCount
        (sessMsgs (rollbackResult st targetId newContent m0.createdAt)) - 1 + 1
    omega
  · show assistCount
        (sessMsgs (rollbackResult st targetId newContent m0.createdAt))
      ≤ assistCount
        (sessMsgs (rollbackResult st targetId newContent m0.createdAt)) - 1 + 2
    omega
  · intro m hm hsid2 hrole2
    show assistUpTo (rollbackResult st targetId newContent m0.createdAt)
        m.createdAt
      ≤ questionCount st.session.stackType
    have hm2 : m ∈ (st.messages.map (fun msg =>
        if msg.id = targetId then { msg with content := newContent }
        else msg)).filter (fun msg =>
        msg.sessionId ≠ st.session.id ∨ msg.createdAt ≤ m0.createdAt) := hm
    have hm3 := (List.mem_filter.mp hm2).1
    rcases List.mem_map.mp hm3 with ⟨x, hx, hfx⟩
    have hxsid : x.sessionId = st.session.id := by
      rw [← editTarget_sessionId targetId newContent x, hfx]
      exact hsid2
    have hxrole : x.role = Role.user := by
      rw [← editTarget_role targetId newContent x, hfx]
      exact hrole2
    have hxts : x.createdAt = m.createdAt := by
      rw [← hfx]
      exact (editTarget_createdAt targetId newContent x).symm
    have hchain : assistUpTo
        (rollbackResult st targetId newContent m0.createdAt) m.createdAt
        ≤ assistUpTo st m.createdAt := by
      unfold assistUpTo
      rw [hsm]
      refine le_trans (assistCount_filter_filter_le _ _ _) ?_
      rw [assistCount_filter_ts_map_edit]
    have hx2 := h.user_bound x hx hxsid hxrole
    rw [hxts] at hx2
    exact le_trans hchain hx2
  · intro m hm
    show m.createdAt
      < (rollbackResult st targetId newContent m0.createdAt).nextTime
    have hm2 : m ∈ (st.messages.map (fun msg =>
        if msg.id = targetId then { msg with content := newContent }
        else msg)).filter (fun msg =>
        msg.sessionId ≠ st.session.id ∨ msg.createdAt ≤ m0.createdAt) := hm
    have hm3 := (List.mem_filter.mp hm2).1
    rcases List.mem_map.mp hm3 with ⟨x, hx, hfx⟩
    have hxts : x.createdAt = m.createdAt := by
      rw [← hfx]
      exact (editTarget_createdAt targetId newContent x).symm
    have := h.ts_lt x hx
    show m.createdAt < st.nextTime
    omega

/-- The invariant survives every advance request. -/
theorem inv_advance (st : SessionState) (r c : String)
    (ai : Except Unit String) (h : Inv st) : Inv (advance st r c ai).1 := by
  by_cases h1 : jsTrim c = ""
  · rw [(advance_reject_shape st r c ai).1 h1]
    exact h
  by_cases h2 : st.session.userId = r
  · by_cases h3 : st.session.status = StackStatus.completed
    · rw [(advance_reject_shape st r c ai).2.2 h3 h2 h1]
      exact h
    · have hprog := status_in_progress_of_ne _ h3
      cases ai with
      | error e =>
        cases e
        rw [advance_fail_shape st r c h1 h2 h3]
        exact inv_advanceFail st c hprog h
      | ok resp =>
        by_cases hl : st.session.currentQuestionIndex + 1
            ≥ questionCount st.session.stackType
        · rw [advance_ok_last_shape st r c resp h1 h2 h3 hl]
          exact inv_advanceLast st c resp hprog h
        · rw [advance_ok_not_last_shape st r c resp h1 h2 h3 hl]
          exact inv_advanceNotLast st c resp hprog hl h
  · rw [(advance_reject_shape st r c ai).2.1 h2 h1]
    exact h

/-- The invariant survives every force-complete request. -/
theorem inv_complete (st : SessionState) (r : String) (h : Inv st) :
    Inv (completeSessionRoute st r).1 := by
  by_cases hown : st.session.userId = r
  · rw [complete_ok_shape st r hown]
    exact inv_forceComplete st h
  · have hrej : completeSessionRoute st r
        = (st, some RouteError.accessDenied) := by
      simp [completeSessionRoute, hown]
    rw [hrej]
    exact h

/-- The invariant survives every edit request. -/
theorem inv_edit (st : SessionState) (r : String) (mid : Nat) (c : String)
    (h : Inv st) : Inv (editAndRollback st r mid c).1 := by
  by_cases h1 : jsTrim c = ""
  · have hrej : editAndRollback st r mid c
        = (st, some RouteError.invalidInput) := by
      simp [editAndRollback, h1]
    rw [hrej]
    exact h
  by_cases h2 : st.session.userId = r
  swap
  · have hrej : editAndRollback st r mid c
        = (st, some RouteError.accessDenied) := by
      simp [editAndRollback, h1, h2]
    rw [hrej]
    exact h
  cases hfind : st.messages.find? (fun x => x.id = mid) with
  | none =>
    have hrej : editAndRollback st r mid c
        = (st, some RouteError.notFound) := by
      simp [editAndRollback, h1, h2, hfind]
    rw [hrej]
    exact h
  | some m0 =>
    by_cases h4 : m0.sessionId = st.session.id
    swap
    · have hrej : editAndRollback st r mid c
          = (st, some RouteError.wrongSession) := by
        simp [editAndRollback, h1, h2, hfind, h4]
      rw [hrej]
      exact h
    by_cases h5 : m0.role = Role.user
    swap
    · have hrej : editAndRollback st r mid c
          = (st, some RouteError.invalidRole) := by
        simp [editAndRollback, h1, h2, hfind, h4, h5]
      rw [hrej]
      exact h
    have hmem := List.mem_of_find?_eq_some hfind
    have hshape : editAndRollback st r mid c
        = (rollbackResult st mid (jsTrim c) m0.createdAt, none) := by
      simp [editAndRollback, rollbackResult, h1, h2, hfind, h4, h5]
    rw [hshape]
    exact inv_rollback st mid (jsTrim c) m0 hmem h4 h5 h


/-- Every reachable state satisfies the inductive invariant. -/
theorem inv_of_reach (st : SessionState) (h : Reach st) : Inv st := by
  induction h with
  | created u t ty d s sid i0 t0 => exact inv_create u t ty d s sid i0 t0
  | advanced st r c ai _ ih => exact inv_advance st r c ai ih
  | forced st r _ ih => exact inv_complete st r ih
  | edited st r mid c _ ih => exact inv_edit st r mid c ih

/-- The scenario states are reachable. -/
theorem reach_advN (n : Nat) : Reach (advN n) := by
  induction n with
  | zero =>
    exact Reach.created ("user-1") ("My Title") StackType.gratitude ("mind")
      ("my sister") ("sess-1") 0 0
  | succ n ih =>
    exact Reach.advanced (advN n) ("user-1") ("answer") (Except.ok ("ok")) ih

/-- Counterexample to claim C6 as stated: force-completing the fresh
scenario session succeeds and leaves a completed session whose cursor is 3,
not `totalQuestions - 1 = 14`. -/
theorem c6_counterexample :
    (completeSessionRoute exCreate ("user-1")).2 = none ∧
    exCompleted.session.status = StackStatus.completed ∧
    exCompleted.session.currentQuestionIndex = 3 ∧
    (stackQuestionFlows exCompleted.session.stackType).totalQuestions - 1 = 14 ∧
    (3 : Nat) ≠ 14 := by
  decide

/-- Claim C6 amended: every reachable session state satisfies
`0 ≤ cursor ≤ totalQuestions(stackType)` (cursors are naturals, so the lower
bound is intrinsic); and when a transition to `completed` happens through
`advance`, the cursor immediately afterwards equals `totalQuestions - 1` —
but the force-complete endpoint completes a session at ANY cursor, so the
claimed equality does not extend to it. -/
theorem c6_amended :
    (∀ st, Reach st → st.session.currentQuestionIndex
        ≤ (stackQuestionFlows st.session.stackType).totalQuestions) ∧
    (∀ st requester content ai, Reach st →
      (advance st requester content ai).2 = none →
      (advance st requester content ai).1.session.status
        = StackStatus.completed →
      (advance st requester content ai).1.session.currentQuestionIndex
        = (stackQuestionFlows
            (advance st requester content ai).1.session.stackType).totalQuestions
          - 1) := by
  constructor
  · intro st hr
    have hinv := inv_of_reach st hr
    have := hinv.cursor_lt
    rw [totalQuestions_eq_questionCount]
    omega
  · intro st r c ai hr hsucc hdone
    have hinv := inv_of_reach st hr
    by_cases h1 : jsTrim c = ""
    · rw [(advance_reject_shape st r c ai).1 h1] at hsucc
      simp at hsucc
    by_cases h2 : st.session.userId = r
    swap
    · rw [(advance_reject_shape st r c ai).2.1 h2 h1] at hsucc
      simp at hsucc
    by_cases h3 : st.session.status = StackStatus.completed
    · rw [(advance_reject_shape st r c ai).2.2 h3 h2 h1] at hsucc
      simp at hsucc
    have hprog := status_in_progress_of_ne _ h3
    cases ai with
    | error e =>
      cases e
      rw [advance_fail_shape st r c h1 h2 h3] at hsucc
      simp at hsucc
    | ok resp =>
      by_cases hl : st.session.currentQuestionIndex + 1
          ≥ questionCount st.session.stackType
      · rw [advance_ok_last_shape st r c resp h1 h2 h3 hl]
        have hcur := hinv.cursor_lt
        show st.session.currentQuestionIndex
          = (stackQuestionFlows st.session.stackType).totalQuestions - 1
        rw [totalQuestions_eq_questionCount]
        omega
      · rw [advance_ok_not_last_shape st r c resp h1 h2 h3 hl] at hdone
        have hdone2 : st.session.status = StackStatus.completed := hdone
        exact absurd hdone2 h3

/-- Witness for C6 amended: the fresh scenario session satisfies the cursor
bound, and the completing twelfth answer of the scenario lands exactly on cursor
`totalQuestions - 1 = 14`. -/
theorem c6_amended_witness :
    exCreate.session.currentQuestionIndex
      ≤ (stackQuestionFlows exCreate.session.stackType).totalQuestions ∧
    (advance (advN 11) ("user-1") ("answer")
        (Except.ok ("ok"))).1.session.currentQuestionIndex
      = (stackQuestionFlows (advance (advN 11) ("user-1") ("answer")
          (Except.ok ("ok"))).1.session.stackType).totalQuestions - 1 :=
  ⟨c6_amended.1 exCreate (Reach.created ("user-1") ("My Title")
      StackType.gratitude ("mind") ("my sister") ("sess-1") 0 0),
   c6_amended.2 (advN 11) ("user-1") ("answer") (Except.ok ("ok"))
      (reach_advN 11) (by decide) (by decide)⟩

end StackBuilder
